import Mathlib

/-!
Verification of the quantara route-analysis core (`ml_module`).

Shallow embedding conventions:
* Python floats are modelled as exact rationals (`ℚ`); the special values
  NaN and ±Infinity get explicit constructors where the code's behaviour
  depends on them.
* Python exceptions are modelled with `Except`: a `try/except` block is a
  `match` on the `Except` value.
* External collaborators (road-quality provider, weather provider, JSON
  parser, per-route analysis pipeline) are abstracted as function
  parameters; the control flow and arithmetic of the embedded functions
  are translated line by line from the Python source.
-/

namespace Quantara

/-! ## Python value / float model (gemini_scorer.clamp_int) -/

/-- A Python float as seen by `clamp_int`: a finite value (exact rational),
NaN, or a signed infinity. -/
inductive PyFloat where
  | finite : ℚ → PyFloat
  | nan : PyFloat
  | inf : PyFloat
  | ninf : PyFloat
deriving DecidableEq, Repr

/-- The exceptions relevant to `clamp_int`:
`float()` raises `ValueError` (bad string) or `TypeError` (bad type),
`round()` raises `ValueError` on NaN and `OverflowError` on infinities. -/
inductive PyErr where
  | valueError : PyErr
  | typeError : PyErr
  | overflowError : PyErr
deriving DecidableEq, Repr

/-- A Python value fed to `clamp_int` (a field of the parsed summarizer
JSON): an int, a float, a string, or `None`. -/
inductive PyVal where
  | vint : Int → PyVal
  | vfloat : PyFloat → PyVal
  | vstr : String → PyVal
  | vnone : PyVal
deriving DecidableEq, Repr

/-- Python `float(s)` on a string. Modelled for the special literals the
claims exercise ("NaN", "nan", "Infinity", "inf", "-Infinity", "-inf");
every other string in this model is a non-numeric string and raises
`ValueError`, as Python does for non-literal strings. -/
def pyStrToFloat (s : String) : Except PyErr PyFloat :=
  if s = "NaN" ∨ s = "nan" then .ok .nan
  else if s = "Infinity" ∨ s = "inf" then .ok .inf
  else if s = "-Infinity" ∨ s = "-inf" then .ok .ninf
  else .error .valueError

/-- Python `float(val)`: ints widen, floats pass through, strings parse,
`None` raises `TypeError`. -/
def pyFloatOf : PyVal → Except PyErr PyFloat
  | .vint n => .ok (.finite (n : ℚ))
  | .vfloat f => .ok f
  | .vstr s => pyStrToFloat s
  | .vnone => .error .typeError

/-- Python `round(q)` on a finite float: nearest integer, ties to even. -/
def pyround (q : ℚ) : Int :=
  let f := ⌊q⌋
  let frac := q - (f : ℚ)
  if frac < 1 / 2 then f
  else if 1 / 2 < frac then f + 1
  else if f % 2 = 0 then f else f + 1

/-- Python `int(round(f))` on a float: finite rounds (ties to even),
NaN raises `ValueError`, ±Infinity raises `OverflowError`. -/
def pyIntRound : PyFloat → Except PyErr Int
  | .finite q => .ok (pyround q)
  | .nan => .error .valueError
  | .inf => .error .overflowError
  | .ninf => .error .overflowError

/-- `clamp_int` from `GeminiResilienceScorer._validate_scores`:
```
try:
    v = int(round(float(val)))
except (ValueError, TypeError):
    v = 50
return max(0, min(100, v))
```
The `except` clause catches only `ValueError` and `TypeError`;
`OverflowError` propagates. -/
def clamp_int (val : PyVal) : Except PyErr Int :=
  match (pyFloatOf val).bind pyIntRound with
  | .ok v => .ok (max 0 (min 100 v))
  | .error .valueError => .ok 50
  | .error .typeError => .ok 50
  | .error .overflowError => .error .overflowError

/-- A route object of the parsed summarizer JSON, as read by
`_validate_scores`: each field is present or absent (`route.get`). -/
structure RawScoredRoute where
  route_name : Option String
  weather_risk_score : Option PyVal
  road_safety_score : Option PyVal
  social_risk_score : Option PyVal
  traffic_risk_score : Option PyVal
  overall_resilience_score : Option PyVal
  short_summary : Option String
  reasoning : Option String
deriving DecidableEq, Repr

/-- The validated per-route record produced by `_validate_scores`. -/
structure ValidatedRoute where
  route_name : String
  weather_risk_score : Int
  road_safety_score : Int
  social_risk_score : Int
  traffic_risk_score : Int
  overall_resilience_score : Int
  short_summary : String
  reasoning : String
deriving DecidableEq, Repr

/-- `route.get(field, 50)`: a missing score field defaults to the int 50
before `clamp_int` is applied. -/
def getScore (o : Option PyVal) : PyVal := o.getD (.vint 50)

/-- Per-route body of `GeminiResilienceScorer._validate_scores`: every
score field goes through `clamp_int`, string fields get textual defaults.
An uncaught exception from `clamp_int` propagates (the surrounding code
has no handler between `clamp_int` and `score_routes`). The ranked-list
synthesis that follows in the source is independent of this record
construction and is not needed by the claims. -/
def validateRouteScores (r : RawScoredRoute) : Except PyErr ValidatedRoute := do
  let w ← clamp_int (getScore r.weather_risk_score)
  let rs ← clamp_int (getScore r.road_safety_score)
  let so ← clamp_int (getScore r.social_risk_score)
  let tr ← clamp_int (getScore r.traffic_risk_score)
  let ov ← clamp_int (getScore r.overall_resilience_score)
  .ok { route_name := r.route_name.getD "Unknown Route"
        weather_risk_score := w
        road_safety_score := rs
        social_risk_score := so
        traffic_risk_score := tr
        overall_resilience_score := ov
        short_summary := r.short_summary.getD "No summary available"
        reasoning := r.reasoning.getD "No reasoning provided" }

/-! ## JSON extraction ladder (gemini_scorer._extract_json_from_text) -/

/-- The brace scan of `_extract_json_from_text`: walk the characters from
the first brace, incrementing depth at each opening brace and decrementing
at each closing brace; capture the prefix up to the position where depth
returns to zero. `none` when the braces never rebalance (the Python
`json_text` stays `None`). `acc` accumulates the characters already
scanned. -/
def braceScan : List Char → Nat → List Char → Option (List Char)
  | [], _, _ => none
  | c :: cs, depth, acc =>
    if c = Char.ofNat 123 then braceScan cs (depth + 1) (acc ++ [c])
    else if c = Char.ofNat 125 then
      if depth = 1 then some (acc ++ [c])
      else braceScan cs (depth - 1) (acc ++ [c])
    else braceScan cs depth (acc ++ [c])

/-- `text.find` of the first opening brace followed by the depth scan:
returns the first balanced brace-delimited block of the text, `none` when
the text has no opening brace or the braces never rebalance. -/
def firstBalancedBlock (text : List Char) : Option (List Char) :=
  match text.dropWhile (fun c => c ≠ Char.ofNat 123) with
  | [] => none
  | rest => braceScan rest 0 []

/-- `json_text.replace(chr(39), chr(34))`: every single quote becomes a
double quote. -/
def replaceSingleQuotes (cs : List Char) : List Char :=
  cs.map (fun c => if c.toNat = 39 then Char.ofNat 34 else c)

/-- The whitespace class of the regex escape in the cleanup patterns
(ASCII subset). -/
def isReSpace (c : Char) : Bool :=
  c = ' ' ∨ c = Char.ofNat 9 ∨ c = Char.ofNat 10 ∨ c = Char.ofNat 13 ∨
    c = Char.ofNat 11 ∨ c = Char.ofNat 12

/-- Helper for the trailing-comma regex: consume a whitespace run, then
require the closing character; `some rest` is the remaining input after
the closer. -/
def dropSpacesThen (close : Char) : List Char → Option (List Char)
  | [] => none
  | c :: cs =>
    if isReSpace c then dropSpacesThen close cs
    else if c = close then some cs else none

/-- The substitution removing a comma before a closer (the cleanup
patterns of `_extract_json_from_text`): scan left to right; at each comma
followed by optional whitespace and the closer, drop the comma and the
whitespace, keep the closer, and resume after it. -/
def removeTrailingCommas (close : Char) : List Char → List Char
  | [] => []
  | c :: cs =>
    if c = ',' then
      match h : dropSpacesThen close cs with
      | some rest => close :: removeTrailingCommas close rest
      | none => c :: removeTrailingCommas close cs
    else c :: removeTrailingCommas close cs
termination_by l => l.length
decreasing_by
  · have key : ∀ (l l2 : List Char), dropSpacesThen close l = some l2 →
        l2.length < l.length := by
      intro l
      induction l with
      | nil => intro l2 hl; simp [dropSpacesThen] at hl
      | cons a as ih =>
        intro l2 hl
        simp only [dropSpacesThen] at hl
        by_cases hs : isReSpace a
        · simp only [hs, if_true] at hl
          exact Nat.lt_trans (ih l2 hl) (Nat.lt_succ_self _)
        · simp only [hs, if_false] at hl
          by_cases hc : a = close
          · simp only [hc, if_true] at hl
            cases hl
            exact Nat.lt_succ_self _
          · simp [hc] at hl
    exact Nat.lt_trans (key cs rest h) (Nat.lt_succ_self _)
  · exact Nat.lt_succ_self _
  · exact Nat.lt_succ_self _

/-- The cleanup applied before the last parse attempt: single quotes to
double quotes, then the two trailing-comma substitutions (before a
closing brace, then before a closing bracket). -/
def cleanJson (cs : List Char) : List Char :=
  removeTrailingCommas ']' (removeTrailingCommas (Char.ofNat 125)
    (replaceSingleQuotes cs))

/-- `GeminiResilienceScorer._extract_json_from_text`, abstracted over the
strict JSON parser `parse` (Python `json.loads`, `none` for
`JSONDecodeError`): direct parse, then parse of the first balanced brace
block, then one parse of the cleaned-up block; `none` when every attempt
fails (the function returns rather than raising). -/
def extractJsonFromText {α : Type} (parse : List Char → Option α)
    (text : List Char) : Option α :=
  match parse text with
  | some j => some j
  | none =>
    match firstBalancedBlock text with
    | none => none
    | some jt =>
      match parse jt with
      | some j => some j
      | none => parse (cleanJson jt)

/-! ## Route acquisition and orchestration (main.RouteAnalysisSystem) -/

/-- A route record as returned by a provider: the optional `route_name`
and an abstract payload standing for the rest of the dictionary
(geometry, distance, duration, steps), which `_get_routes` and the naming
loop never inspect. -/
structure RouteRec (α : Type) where
  route_name : Option String
  data : α
deriving DecidableEq, Repr

/-- `RouteAnalysisSystem._get_routes`: try Google Maps; a truthy
(non-empty) result is truncated to `max_alternatives` and returned;
otherwise, when the OSRM client reports availability, try it and treat a
truthy result the same way; otherwise return the empty list. Provider
results are `Option`s because `get_directions` returns `None` on
transport failure; Python's `if routes:` treats `None` and `[]` alike. -/
def get_routes {α : Type} (primary : Option (List (RouteRec α)))
    (osrmAvailable : Bool) (fallback : Option (List (RouteRec α)))
    (maxAlt : Nat) : List (RouteRec α) :=
  let g := primary.getD []
  if ¬ g.isEmpty then g.take maxAlt
  else if osrmAvailable then
    let f := fallback.getD []
    if ¬ f.isEmpty then f.take maxAlt else []
  else []

/-- The naming loop of `analyze_routes` (lines 140–142): a route whose
`route_name` is missing or falsy (empty string) is renamed
`"Route {i+1}"` from its 0-based enumeration index. -/
def nameRoutes {α : Type} (routes : List (RouteRec α)) : List (RouteRec α) :=
  routes.enum.map (fun p =>
    match p.2.route_name with
    | none => { p.2 with route_name := some ("Route " ++ toString (p.1 + 1)) }
    | some s =>
      if s = "" then { p.2 with route_name := some ("Route " ++ toString (p.1 + 1)) }
      else p.2)

/-- The result dictionary of `analyze_routes`, restricted to the fields
the claims inspect. -/
structure AnalysisOutput (β γ : Type) where
  error : Option String
  routes : List β
  resilience_scores : Option γ
  analysis_complete : Bool
deriving DecidableEq, Repr

/-- The per-route analysis loop of steps 2–5: each route is analyzed in
order; the loop itself has no handler, so the first exception aborts the
remaining routes and propagates. -/
def runRouteLoop {α β : Type} (analyzeOne : RouteRec α → Except String β) :
    List (RouteRec α) → Except String (List β)
  | [] => .ok []
  | r :: rest =>
    match analyzeOne r with
    | .error e => .error e
    | .ok b =>
      match runRouteLoop analyzeOne rest with
      | .error e => .error e
      | .ok bs => .ok (b :: bs)

/-- `RouteAnalysisSystem.analyze_routes`, control-flow skeleton: the
whole body (route fetch, naming, the per-route analysis loop, scoring,
result assembly) sits inside one `try`; the single `except Exception`
returns the error dictionary. The per-route work of steps 2–5 is
abstracted into `analyzeOne` (everything computed for one route) and
`mkScores` (the resilience aggregation over the per-route outputs). -/
def analyze_routes {α β γ : Type} (primary : Option (List (RouteRec α)))
    (osrmAvailable : Bool) (fallback : Option (List (RouteRec α)))
    (maxAlt : Nat) (analyzeOne : RouteRec α → Except String β)
    (mkScores : List β → γ) : AnalysisOutput β γ :=
  let routes := get_routes primary osrmAvailable fallback maxAlt
  if routes.isEmpty then
    { error := some "No routes found", routes := [],
      resilience_scores := none, analysis_complete := false }
  else
    match runRouteLoop analyzeOne (nameRoutes routes) with
    | .error e =>
      { error := some e, routes := [],
        resilience_scores := none, analysis_complete := false }
    | .ok rs =>
      { error := none, routes := rs,
        resilience_scores := some (mkScores rs), analysis_complete := true }

/-! ## Safety scorer (analysis/road_safety_score.RoadSafetyScorer) -/

/-- A weather sample as returned by
`WeatherAnalyzer.get_weather_at_point`, restricted to the fields the
scorer reads (the bookkeeping keys `sample_id` and `location` the scorer
writes back are not read anywhere the claims touch). -/
structure WeatherSample where
  weather_risk_score : ℚ
  rainfall_mm : ℚ
  visibility_m : ℚ
  windspeed : ℚ
  temperature : ℚ
  cloudcover : ℚ
  visibility_risk : ℚ
  rain_risk : ℚ
  wind_risk : ℚ
deriving DecidableEq, Repr

/-- A road sample as returned by `RoadAnalyzer.analyze_segment`,
restricted to the fields the scorer reads. -/
structure RoadSample where
  road_type : String
  base_quality : ℚ
deriving DecidableEq, Repr

/-- A segment as consumed by the scorer. Only `length_m` enters the
arithmetic; the midpoint is consumed solely as the argument of the two
collaborator calls, which the embedding abstracts as functions of the
segment index. -/
structure Segment where
  length_m : ℚ
deriving DecidableEq, Repr

/-- The accumulator variables of the segment loop of
`RoadSafetyScorer.calculate`, one field per Python local. -/
structure ScorerState where
  weighted_sum : ℚ
  total_length : ℚ
  total_rainfall : ℚ
  total_wind : ℚ
  total_vis : ℚ
  total_temp : ℚ
  total_cloud : ℚ
  total_weather_risk : ℚ
  weather_data_list : List WeatherSample
  road_type_dist : List (String × ℚ)
  weighted_road_quality : ℚ
deriving DecidableEq, Repr

/-- `road_type_dist[rt] = road_type_dist.get(rt, 0) + length/1000` on an
insertion-ordered dictionary, modelled as an association list: update the
existing key in place or append a new one. -/
def distAdd : List (String × ℚ) → String → ℚ → List (String × ℚ)
  | [], k, v => [(k, v)]
  | (k0, v0) :: rest, k, v =>
    if k0 = k then (k0, v0 + v) :: rest else (k0, v0) :: distAdd rest k v

/-- The `for i, segment in enumerate(segments)` loop of
`RoadSafetyScorer.calculate`. `i` is the index of the first remaining
segment, `wcur` the weather sample currently in scope (`w_data`): a fresh
sample is taken when `i % 10 == 0`, otherwise the carried one is reused.
`roadAt` and `weatherAt` abstract the two collaborators as functions of
the segment index (the source passes the segment midpoint and length;
neither enters the arithmetic otherwise). -/
def scorerLoop (roadAt : Nat → RoadSample) (weatherAt : Nat → WeatherSample) :
    List Segment → Nat → WeatherSample → ScorerState → ScorerState
  | [], _, _, st => st
  | seg :: rest, i, wcur, st =>
    let r := roadAt i
    let w := if i % 10 = 0 then weatherAt i else wcur
    let length := seg.length_m
    let term := (r.base_quality - w.weather_risk_score * 100) * length
    let adj_q := max 0 (r.base_quality - w.weather_risk_score * 100)
    let st2 : ScorerState :=
      { weighted_sum := st.weighted_sum + term
        total_length := st.total_length + length
        total_rainfall := st.total_rainfall + w.rainfall_mm
        total_wind := st.total_wind + w.windspeed
        total_vis := st.total_vis + w.visibility_m
        total_temp := st.total_temp + w.temperature
        total_cloud := st.total_cloud + w.cloudcover
        total_weather_risk := st.total_weather_risk + w.weather_risk_score
        weather_data_list := st.weather_data_list ++ [w]
        road_type_dist := distAdd st.road_type_dist r.road_type (length / 1000)
        weighted_road_quality := st.weighted_road_quality + adj_q * length }
    scorerLoop roadAt weatherAt rest (i + 1) w st2

/-- Python `int(q)` on a finite float: truncation toward zero. -/
def pyTrunc (q : ℚ) : Int := if 0 ≤ q then ⌊q⌋ else -⌊-q⌋

/-- The `weather_analysis` dictionary built by the scorer. -/
structure WeatherAnalysis where
  weather_data : List WeatherSample
  avg_rainfall : ℚ
  avg_windspeed : ℚ
  avg_visibility : ℚ
  avg_temperature : ℚ
  avg_cloudcover : Int
  avg_weather_risk : ℚ
  visibility_risk : ℚ
  rain_risk : ℚ
  wind_risk : ℚ
deriving DecidableEq, Repr

/-- The `road_analysis` dictionary built by the scorer, restricted to the
fields the claims inspect (`road_segments` echoes the enriched input
segments and is read nowhere the claims touch). -/
structure RoadAnalysis where
  road_quality_score : ℚ
  avg_weather_risk : ℚ
  total_rainfall : ℚ
  road_type_distribution : List (String × ℚ)
deriving DecidableEq, Repr

/-- The return dictionary of `RoadSafetyScorer.calculate`. The two
analysis slots are `Option`s because the no-segment default returns empty
dictionaries. -/
structure SafetyResult where
  road_safety_score : ℚ
  weather_analysis : Option WeatherAnalysis
  road_analysis : Option RoadAnalysis
deriving DecidableEq, Repr

/-- `default_result()`: score 0.5 and empty analyses. -/
def default_result : SafetyResult :=
  { road_safety_score := 1 / 2, weather_analysis := none, road_analysis := none }

/-- The zero-initialized accumulators of the loop. -/
def initScorerState : ScorerState :=
  { weighted_sum := 0, total_length := 0, total_rainfall := 0, total_wind := 0,
    total_vis := 0, total_temp := 0, total_cloud := 0, total_weather_risk := 0,
    weather_data_list := [], road_type_dist := [], weighted_road_quality := 0 }

/-- `RoadSafetyScorer.calculate`: the empty-segment early return, the
segment loop, and the final assembly. The loop starts at index 0, whose
`0 % 10 == 0` makes it take a fresh sample immediately, so the initial
carried sample (passed as `weatherAt 0` here; an unbound local in
Python) is never read. -/
def calculate (roadAt : Nat → RoadSample) (weatherAt : Nat → WeatherSample)
    (segments : List Segment) : SafetyResult :=
  if segments.isEmpty then default_result
  else
    let st := scorerLoop roadAt weatherAt segments 0 (weatherAt 0) initScorerState
    let final0 : ℚ :=
      if 0 < st.total_length then st.weighted_sum / (100 * st.total_length) else 0
    let final_score := max 0 (min 1 final0)
    let count : ℚ := segments.length
    let wa : WeatherAnalysis :=
      { weather_data := st.weather_data_list
        avg_rainfall := if count ≠ 0 then st.total_rainfall / count else 0
        avg_windspeed := if count ≠ 0 then st.total_wind / count else 0
        avg_visibility := if count ≠ 0 then st.total_vis / count else 10000
        avg_temperature := if count ≠ 0 then st.total_temp / count else 20
        avg_cloudcover := if count ≠ 0 then pyTrunc (st.total_cloud / count) else 30
        avg_weather_risk := if count ≠ 0 then st.total_weather_risk / count else 0
        visibility_risk :=
          if count ≠ 0 then
            ((st.weather_data_list.map (fun w => w.visibility_risk)).sum) / count
          else 0
        rain_risk :=
          if count ≠ 0 then
            ((st.weather_data_list.map (fun w => w.rain_risk)).sum) / count
          else 0
        wind_risk :=
          if count ≠ 0 then
            ((st.weather_data_list.map (fun w => w.wind_risk)).sum) / count
          else 0 }
    let rq0 : ℚ :=
      if 0 < st.total_length then (st.weighted_road_quality / st.total_length) / 100
      else 1 / 2
    let road_quality_score := max 0 (min 1 rq0)
    let ra : RoadAnalysis :=
      { road_quality_score := road_quality_score
        avg_weather_risk := wa.avg_weather_risk
        total_rainfall := wa.avg_rainfall
        road_type_distribution := st.road_type_dist }
    { road_safety_score := final_score, weather_analysis := some wa,
      road_analysis := some ra }

/-- The weather sample in effect at segment `i` under the stride-10
sampling: the sample fetched at the last multiple of 10 at or below `i`. -/
def usedSample (weatherAt : Nat → WeatherSample) (i : Nat) : WeatherSample :=
  weatherAt (10 * (i / 10))

/-- Specification-side per-segment safety term: indexed segment `p`
contributes `(base_quality - 100 * weather_risk) * length`, the weather
risk being that of the sample in effect at the segment. -/
def termOf (roadAt : Nat → RoadSample) (weatherAt : Nat → WeatherSample)
    (p : Nat × Segment) : ℚ :=
  ((roadAt p.1).base_quality - (usedSample weatherAt p.1).weather_risk_score * 100)
    * p.2.length_m

/-- Specification-side per-segment road-quality term: the adjusted
quality floored at 0, weighted by length. -/
def adjTermOf (roadAt : Nat → RoadSample) (weatherAt : Nat → WeatherSample)
    (p : Nat × Segment) : ℚ :=
  max 0 ((roadAt p.1).base_quality - (usedSample weatherAt p.1).weather_risk_score * 100)
    * p.2.length_m

/-- Closed form of the road-type distribution accumulated by the loop. -/
def distOf (roadAt : Nat → RoadSample) (ps : List (Nat × Segment))
    (d0 : List (String × ℚ)) : List (String × ℚ) :=
  ps.foldl (fun d p => distAdd d (roadAt p.1).road_type (p.2.length_m / 1000)) d0

/-- Total length of a segment list. -/
def totalLen (segs : List Segment) : ℚ := (segs.map (fun s => s.length_m)).sum

/-- Sum of the per-segment safety terms over an indexed segment list. -/
def termSum (roadAt : Nat → RoadSample) (weatherAt : Nat → WeatherSample)
    (segs : List Segment) : ℚ :=
  (segs.enum.map (termOf roadAt weatherAt)).sum

/-- Sum of the floored road-quality terms over an indexed segment list. -/
def adjSum (roadAt : Nat → RoadSample) (weatherAt : Nat → WeatherSample)
    (segs : List Segment) : ℚ :=
  (segs.enum.map (adjTermOf roadAt weatherAt)).sum

/-- The per-segment mean of a weather field under the stride-10 sample
reuse: segment `i` contributes the field of the sample in effect there,
and the divisor is the segment count. -/
def wfieldMean (f : WeatherSample → ℚ) (weatherAt : Nat → WeatherSample)
    (segs : List Segment) : ℚ :=
  ((segs.enum.map (fun p => f (usedSample weatherAt p.1))).sum) / (segs.length : ℚ)

/-! ## Concrete inputs used by counterexamples and witnesses -/

/-- Road collaborator of end-to-end scenario A: every segment reports
`base_quality = 80`. -/
def exRoad : Nat → RoadSample := fun _ => { road_type := "highway", base_quality := 80 }

/-- Weather collaborator of end-to-end scenario A: every sample carries
`weather_risk_score = 0.1` and neutral raw fields. -/
def exWeather : Nat → WeatherSample :=
  fun _ => { weather_risk_score := 1 / 10, rainfall_mm := 0, visibility_m := 10000,
             windspeed := 0, temperature := 20, cloudcover := 30,
             visibility_risk := 0, rain_risk := 0, wind_risk := 0 }

/-- Segments of end-to-end scenario A: two segments of 1000 m. -/
def exSegs : List Segment := [{ length_m := 1000 }, { length_m := 1000 }]

/-- Road collaborator for the weather-mean counterexample. -/
def cexRoad : Nat → RoadSample := fun _ => { road_type := "road", base_quality := 50 }

/-- Weather collaborator for the weather-mean counterexample: the sample
fetched at segment 10 reports 11 mm of rainfall, the one at segment 0
none. -/
def cexWeather : Nat → WeatherSample :=
  fun i =>
    if i = 10 then
      { weather_risk_score := 0, rainfall_mm := 11, visibility_m := 0,
        windspeed := 0, temperature := 0, cloudcover := 0,
        visibility_risk := 0, rain_risk := 0, wind_risk := 0 }
    else
      { weather_risk_score := 0, rainfall_mm := 0, visibility_m := 0,
        windspeed := 0, temperature := 0, cloudcover := 0,
        visibility_risk := 0, rain_risk := 0, wind_risk := 0 }

/-- Eleven unit-length segments: samples are fetched at segments 0 and
10, the intervening nine reuse the sample of segment 0. -/
def cexSegs : List Segment := List.replicate 11 { length_m := 1 }

/-- Two named routes fed to the orchestration counterexample. -/
def c2Routes : List (RouteRec Nat) :=
  [{ route_name := some "Route A", data := 0 }, { route_name := some "Route B", data := 1 }]

/-- A per-route analysis that succeeds on the first route and raises on
the second. -/
def c2AnalyzeOne : RouteRec Nat → Except String (RouteRec Nat) :=
  fun r => if r.data = 1 then .error "analysis failed" else .ok r

/-- A strict parser for the extraction-ladder witness: accepts exactly
the text between the braces of the witness input. -/
def c8Parse : List Char → Option Nat :=
  fun cs => if cs = String.toList "{1}" then some 1 else none

/-- Witness input for the extraction ladder: valid JSON surrounded by
prose, so the direct parse fails and the brace scan succeeds. -/
def c8Text : List Char := String.toList "x{1}y"

/-! ## Supporting lemmas -/

theorem usedSample_at_sampled (weatherAt : Nat → WeatherSample) {i : Nat}
    (h : i % 10 = 0) : usedSample weatherAt i = weatherAt i := by
  unfold usedSample
  rw [Nat.mul_div_cancel' (Nat.dvd_of_mod_eq_zero h)]

theorem div10_succ {i : Nat} (h : (i + 1) % 10 ≠ 0) : (i + 1) / 10 = i / 10 := by
  rw [Nat.succ_div]
  simp [Nat.dvd_iff_mod_eq_zero, h]

/-- Closed form of the segment loop: starting from index `i` with a
carried sample consistent with the stride-10 discipline, every
accumulator ends up as its initial value plus the sum of the per-segment
contributions, with the sample in effect at segment `p.1` being
`usedSample weatherAt p.1`. -/
theorem scorerLoop_spec (roadAt : Nat → RoadSample) (weatherAt : Nat → WeatherSample) :
    ∀ (segs : List Segment) (i : Nat) (wcur : WeatherSample) (st : ScorerState),
    wcur = usedSample weatherAt i ∨ i % 10 = 0 →
    scorerLoop roadAt weatherAt segs i wcur st =
      { weighted_sum := st.weighted_sum +
          ((segs.enumFrom i).map (termOf roadAt weatherAt)).sum
        total_length := st.total_length +
          ((segs.enumFrom i).map (fun p => p.2.length_m)).sum
        total_rainfall := st.total_rainfall +
          ((segs.enumFrom i).map (fun p => (usedSample weatherAt p.1).rainfall_mm)).sum
        total_wind := st.total_wind +
          ((segs.enumFrom i).map (fun p => (usedSample weatherAt p.1).windspeed)).sum
        total_vis := st.total_vis +
          ((segs.enumFrom i).map (fun p => (usedSample weatherAt p.1).visibility_m)).sum
        total_temp := st.total_temp +
          ((segs.enumFrom i).map (fun p => (usedSample weatherAt p.1).temperature)).sum
        total_cloud := st.total_cloud +
          ((segs.enumFrom i).map (fun p => (usedSample weatherAt p.1).cloudcover)).sum
        total_weather_risk := st.total_weather_risk +
          ((segs.enumFrom i).map (fun p => (usedSample weatherAt p.1).weather_risk_score)).sum
        weather_data_list := st.weather_data_list ++
          (segs.enumFrom i).map (fun p => usedSample weatherAt p.1)
        road_type_dist := distOf roadAt (segs.enumFrom i) st.road_type_dist
        weighted_road_quality := st.weighted_road_quality +
          ((segs.enumFrom i).map (adjTermOf roadAt weatherAt)).sum } := by
  intro segs
  induction segs with
  | nil => intro i wcur st _; simp [scorerLoop, List.enumFrom, distOf]
  | cons seg rest ih =>
    intro i wcur st hw
    have hwu : (if i % 10 = 0 then weatherAt i else wcur) = usedSample weatherAt i := by
      by_cases h : i % 10 = 0
      · simp [h, usedSample_at_sampled weatherAt h]
      · rcases hw with hw | hw
        · simp [h, hw]
        · exact absurd hw h
    have hnext : usedSample weatherAt i = usedSample weatherAt (i + 1) ∨
        (i + 1) % 10 = 0 := by
      by_cases h1 : (i + 1) % 10 = 0
      · exact Or.inr h1
      · exact Or.inl (by unfold usedSample; rw [div10_succ h1])
    simp only [scorerLoop, hwu]
    rw [ih (i + 1) (usedSample weatherAt i) _ hnext]
    simp [List.enumFrom, termOf, adjTermOf, distOf, add_assoc, List.append_assoc]

theorem enumFrom_map_sndF {α β : Type} (g : α → β) (n : Nat) (l : List α) :
    (List.enumFrom n l).map (fun p => g p.2) = l.map g := by
  have h : (fun (p : Nat × α) => g p.2) = g ∘ Prod.snd := rfl
  rw [h, ← List.map_map, List.enumFrom_map_snd]

/-- Closed form of `calculate` on a non-empty segment list. -/
theorem calculate_spec (roadAt : Nat → RoadSample) (weatherAt : Nat → WeatherSample)
    (segs : List Segment) (h : segs ≠ []) :
    calculate roadAt weatherAt segs =
      { road_safety_score := max 0 (min 1
          (if 0 < totalLen segs then
            termSum roadAt weatherAt segs / (100 * totalLen segs) else 0))
        weather_analysis := some
          { weather_data := segs.enum.map (fun p => usedSample weatherAt p.1)
            avg_rainfall := wfieldMean (fun w => w.rainfall_mm) weatherAt segs
            avg_windspeed := wfieldMean (fun w => w.windspeed) weatherAt segs
            avg_visibility := wfieldMean (fun w => w.visibility_m) weatherAt segs
            avg_temperature := wfieldMean (fun w => w.temperature) weatherAt segs
            avg_cloudcover := pyTrunc (wfieldMean (fun w => w.cloudcover) weatherAt segs)
            avg_weather_risk := wfieldMean (fun w => w.weather_risk_score) weatherAt segs
            visibility_risk := wfieldMean (fun w => w.visibility_risk) weatherAt segs
            rain_risk := wfieldMean (fun w => w.rain_risk) weatherAt segs
            wind_risk := wfieldMean (fun w => w.wind_risk) weatherAt segs }
        road_analysis := some
          { road_quality_score := max 0 (min 1
              (if 0 < totalLen segs then
                (adjSum roadAt weatherAt segs / totalLen segs) / 100 else 1 / 2))
            avg_weather_risk := wfieldMean (fun w => w.weather_risk_score) weatherAt segs
            total_rainfall := wfieldMean (fun w => w.rainfall_mm) weatherAt segs
            road_type_distribution := distOf roadAt segs.enum [] } } := by
  have hne : segs.isEmpty = false := by
    simpa [List.isEmpty_iff] using h
  have hcount : (segs.length : ℚ) ≠ 0 := by
    simpa using (fun hlen => h (List.length_eq_zero.mp hlen))
  unfold calculate
  rw [hne]
  rw [scorerLoop_spec roadAt weatherAt segs 0 (weatherAt 0) initScorerState (Or.inr rfl)]
  have hlen : ((segs.enumFrom 0).map (fun p => p.2.length_m)).sum = totalLen segs := by
    rw [enumFrom_map_sndF]; rfl
  simp only [initScorerState, zero_add, List.nil_append, Bool.false_eq_true,
    if_false, hlen]
  have henum : List.enumFrom 0 segs = segs.enum := rfl
  simp only [henum, List.map_map, Function.comp, termSum, adjSum, wfieldMean,
    hcount, ne_eq, not_false_iff, if_true, div_eq_mul_inv]
  rfl

theorem pyround_intCast (n : Int) : pyround ((n : ℚ)) = n := by
  simp [pyround, Int.floor_intCast]

theorem pyround_bounds (q : ℚ) : ⌊q⌋ ≤ pyround q ∧ pyround q ≤ ⌊q⌋ + 1 := by
  simp only [pyround]
  split_ifs <;> omega

theorem runRouteLoop_ok_length {α β : Type} (f : RouteRec α → Except String β) :
    ∀ (l : List (RouteRec α)) (rs : List β),
      runRouteLoop f l = .ok rs → rs.length = l.length := by
  intro l
  induction l with
  | nil =>
    intro rs h
    simp only [runRouteLoop] at h
    cases h
    rfl
  | cons r rest ih =>
    intro rs h
    simp only [runRouteLoop] at h
    cases hr : f r with
    | error e => rw [hr] at h; cases h
    | ok b =>
      rw [hr] at h
      cases hrest : runRouteLoop f rest with
      | error e => rw [hrest] at h; cases h
      | ok bs =>
        rw [hrest] at h
        cases h
        simp [ih bs hrest]

theorem nameRoutes_length {α : Type} (routes : List (RouteRec α)) :
    (nameRoutes routes).length = routes.length := by
  simp [nameRoutes]

/-! ## Claim theorems -/

/-- C9: during validation of summarizer output every numeric score field
is coerced to an integer and clamped to [0,100]: finite numeric values
round then clamp, a value below 0 becomes 0, a value above 100 becomes
100, a non-numeric string, `None` or a missing field becomes 50; in
particular -5 maps to 0, 150 maps to 100, and the string "NaN" maps to
50 (NaN makes `round` raise `ValueError`, which the handler turns into
50). -/
theorem clamp_law :
    (∀ q : ℚ, clamp_int (.vfloat (.finite q)) = .ok (max 0 (min 100 (pyround q)))) ∧
    (∀ n : Int, clamp_int (.vint n) = .ok (max 0 (min 100 n))) ∧
    (∀ q : ℚ, q < 0 → clamp_int (.vfloat (.finite q)) = .ok 0) ∧
    (∀ q : ℚ, 100 < q → clamp_int (.vfloat (.finite q)) = .ok 100) ∧
    (∀ s : String, pyStrToFloat s = .error .valueError →
      clamp_int (.vstr s) = .ok 50) ∧
    clamp_int .vnone = .ok 50 ∧
    clamp_int (getScore none) = .ok 50 ∧
    clamp_int (.vstr "NaN") = .ok 50 ∧
    clamp_int (.vint (-5)) = .ok 0 ∧
    clamp_int (.vint 150) = .ok 100 := by
  have hfin : ∀ q : ℚ, clamp_int (.vfloat (.finite q)) =
      .ok (max 0 (min 100 (pyround q))) := by
    intro q
    simp [clamp_int, pyFloatOf, pyIntRound, Except.bind]
  refine ⟨hfin, ?_, ?_, ?_, ?_, by rfl,
    by simp only [getScore, Option.getD, clamp_int, pyFloatOf, pyIntRound, Except.bind]
       norm_num [pyround, Int.fract],
    by rfl, ?_, ?_⟩
  · intro n
    simp [clamp_int, pyFloatOf, pyIntRound, Except.bind, pyround_intCast]
  · intro q hq
    rw [hfin q]
    have h1 : pyround q ≤ ⌊q⌋ + 1 := (pyround_bounds q).2
    have h2 : ⌊q⌋ < 0 := Int.floor_lt.mpr (by exact_mod_cast hq)
    have : max 0 (min 100 (pyround q)) = 0 := by omega
    rw [this]
  · intro q hq
    rw [hfin q]
    have h1 : ⌊q⌋ ≤ pyround q := (pyround_bounds q).1
    have h2 : (100 : Int) ≤ ⌊q⌋ := Int.le_floor.mpr (by exact_mod_cast le_of_lt hq)
    have : max 0 (min 100 (pyround q)) = 100 := by omega
    rw [this]
  · intro s hs
    simp [clamp_int, pyFloatOf, hs, Except.bind]
  · simp only [clamp_int, pyFloatOf, pyIntRound, Except.bind, pyround]
    norm_num [Int.fract]
  · simp only [clamp_int, pyFloatOf, pyIntRound, Except.bind, pyround]
    norm_num [Int.fract]

/-- C9 witness: the clamp law applied to the non-numeric string "oops",
whose `float()` conversion raises `ValueError`. -/
theorem clamp_law_witness : clamp_int (.vstr "oops") = .ok 50 :=
  clamp_law.2.2.2.2.1 "oops" (by rfl)

/-- C10: `clamp_int` is not total over numeric inputs: on an infinite
value (`float('inf')` or the string "Infinity") the conversion raises
`OverflowError`, which the `except (ValueError, TypeError)` clause does
not catch, so score validation propagates the exception instead of
returning 100 or 50. -/
theorem overflow_not_caught :
    clamp_int (.vfloat .inf) = .error .overflowError ∧
    clamp_int (.vstr "Infinity") = .error .overflowError ∧
    validateRouteScores
        { route_name := some "Route 1", weather_risk_score := some (.vfloat .inf),
          road_safety_score := none, social_risk_score := none,
          traffic_risk_score := none, overall_resilience_score := none,
          short_summary := none, reasoning := none } = .error .overflowError :=
  ⟨rfl, rfl, rfl⟩

/-- C8: the extraction of structured data from summarizer text follows
exactly the ladder: direct strict parse; on failure, strict parse of the
first balanced brace block found by depth scanning; on failure, one
retry after quote normalization and trailing-comma removal; when every
attempt fails the function returns `none` rather than raising. -/
theorem json_extraction_ladder :
    ∀ (α : Type) (parse : List Char → Option α) (text : List Char),
      (∀ j, parse text = some j → extractJsonFromText parse text = some j) ∧
      (parse text = none → firstBalancedBlock text = none →
        extractJsonFromText parse text = none) ∧
      (∀ b, parse text = none → firstBalancedBlock text = some b →
        (∀ j, parse b = some j → extractJsonFromText parse text = some j) ∧
        (parse b = none →
          extractJsonFromText parse text = parse (cleanJson b))) := by
  intro α parse text
  refine ⟨?_, ?_, ?_⟩
  · intro j h
    simp [extractJsonFromText, h]
  · intro h1 h2
    simp [extractJsonFromText, h1, h2]
  · intro b h1 h2
    constructor
    · intro j h3
      simp [extractJsonFromText, h1, h2, h3]
    · intro h3
      simp [extractJsonFromText, h1, h2, h3]

/-- C8 witness: on the concrete text `x{1}y` with a strict parser that
accepts exactly `{1}`, the direct parse fails, the brace scan finds
`{1}`, and the second attempt succeeds. -/
theorem json_extraction_ladder_witness :
    extractJsonFromText c8Parse c8Text = some 1 :=
  ((json_extraction_ladder Nat c8Parse c8Text).2.2 (String.toList "{1}")
    (by decide) (by decide)).1 1 (by decide)

/-- C1: for every non-empty segment list with positive total length,
`calculate` returns a road-safety score equal to the clamp to [0,1] of
`sum((base_quality - 100*weather_risk) * length) / (100 * sum(length))`,
the weather risk of each segment being the (possibly reused) sample of
the stride-10 discipline; in particular, for segments with
`base_quality = [80, 80]`, `weather_risk_score = [0.1, 0.1]` and
`length_m = [1000, 1000]`, the score is exactly 0.70. -/
theorem road_safety_score_formula :
    (∀ (roadAt : Nat → RoadSample) (weatherAt : Nat → WeatherSample)
        (segs : List Segment), 0 < totalLen segs →
      (calculate roadAt weatherAt segs).road_safety_score =
        max 0 (min 1 (termSum roadAt weatherAt segs / (100 * totalLen segs)))) ∧
    (calculate exRoad exWeather exSegs).road_safety_score = 7 / 10 := by
  constructor
  · intro roadAt weatherAt segs hpos
    have hne : segs ≠ [] := by
      intro he
      rw [he] at hpos
      simp [totalLen] at hpos
    rw [calculate_spec _ _ _ hne]
    simp only [if_pos hpos]
  · simp [calculate, scorerLoop, initScorerState, exRoad, exWeather, exSegs]
    norm_num

/-- C1 witness: the formula applied to the scenario-A inputs, whose
total length 2000 is positive. -/
theorem road_safety_score_formula_witness :
    (calculate exRoad exWeather exSegs).road_safety_score =
      max 0 (min 1 (termSum exRoad exWeather exSegs / (100 * totalLen exSegs))) :=
  road_safety_score_formula.1 exRoad exWeather exSegs
    (by norm_num [totalLen, exSegs])

/-- C3: for every segment list with positive total length, the
road-safety score and the road-quality score both lie in [0,1], and the
road-quality score is the clamp of the length-weighted sum of the
per-segment adjusted qualities floored at 0
(`max 0 (base_quality - 100*weather_risk)`). -/
theorem score_clamping_invariant :
    ∀ (roadAt : Nat → RoadSample) (weatherAt : Nat → WeatherSample)
      (segs : List Segment), 0 < totalLen segs →
      (0 ≤ (calculate roadAt weatherAt segs).road_safety_score ∧
        (calculate roadAt weatherAt segs).road_safety_score ≤ 1) ∧
      ∃ ra, (calculate roadAt weatherAt segs).road_analysis = some ra ∧
        ra.road_quality_score =
          max 0 (min 1 (adjSum roadAt weatherAt segs / (100 * totalLen segs))) ∧
        0 ≤ ra.road_quality_score ∧ ra.road_quality_score ≤ 1 := by
  intro roadAt weatherAt segs hpos
  have hne : segs ≠ [] := by
    intro he
    rw [he] at hpos
    simp [totalLen] at hpos
  rw [calculate_spec _ _ _ hne]
  refine ⟨⟨le_max_left _ _, max_le (by norm_num) (min_le_left _ _)⟩,
    ⟨_, rfl, ?_, le_max_left _ _, max_le (by norm_num) (min_le_left _ _)⟩⟩
  rw [if_pos hpos, div_div, mul_comm (totalLen segs) 100]

/-- C3 witness: the invariant applied to the scenario-A inputs. -/
theorem score_clamping_invariant_witness :
    0 ≤ (calculate exRoad exWeather exSegs).road_safety_score ∧
      (calculate exRoad exWeather exSegs).road_safety_score ≤ 1 :=
  (score_clamping_invariant exRoad exWeather exSegs
    (by norm_num [totalLen, exSegs])).1

/-- C6: `calculate` takes a fresh weather sample only at segment indices
divisible by 10 — two weather collaborators that agree on those indices
produce identical output — and the sample in effect at every other
segment is the one fetched at index `10 * (i / 10)`. -/
theorem weather_sampling_stride :
    (∀ (roadAt : Nat → RoadSample) (w w2 : Nat → WeatherSample)
        (segs : List Segment), (∀ i, i % 10 = 0 → w i = w2 i) →
      calculate roadAt w segs = calculate roadAt w2 segs) ∧
    (∀ (roadAt : Nat → RoadSample) (w : Nat → WeatherSample)
        (segs : List Segment), segs ≠ [] →
      (calculate roadAt w segs).weather_analysis.map (fun wa => wa.weather_data) =
        some (segs.enum.map (fun p => w (10 * (p.1 / 10))))) := by
  constructor
  · intro roadAt w w2 segs h
    by_cases hseg : segs = []
    · subst hseg
      rfl
    · have hu : ∀ i, usedSample w i = usedSample w2 i := by
        intro i
        exact h _ (Nat.mul_mod_right 10 _)
      have husd : usedSample w = usedSample w2 := funext hu
      have ht : termOf roadAt w = termOf roadAt w2 := by
        funext p
        simp [termOf, hu]
      have ha : adjTermOf roadAt w = adjTermOf roadAt w2 := by
        funext p
        simp [adjTermOf, hu]
      rw [calculate_spec _ _ _ hseg, calculate_spec _ _ _ hseg]
      simp only [termSum, adjSum, wfieldMean, ht, ha, husd]
  · intro roadAt w segs hne
    rw [calculate_spec _ _ _ hne]
    simp [usedSample]

/-- C6 witness: agreement at sampled indices applied to two concrete
collaborators that differ only at the unsampled index 3, and the
reuse law applied to the scenario-A inputs. -/
theorem weather_sampling_stride_witness :
    calculate cexRoad
        (fun i => if i = 3 then exWeather 0 else cexWeather i) cexSegs =
      calculate cexRoad cexWeather cexSegs ∧
    (calculate exRoad exWeather exSegs).weather_analysis.map
        (fun wa => wa.weather_data) =
      some (exSegs.enum.map (fun p => exWeather (10 * (p.1 / 10)))) :=
  ⟨weather_sampling_stride.1 cexRoad _ cexWeather cexSegs
      (by intro i hi; simp only [if_neg (by omega : ¬ i = 3)]),
    weather_sampling_stride.2 exRoad exWeather exSegs (by simp [exSegs])⟩

/-- C7 counterexample: on eleven unit segments whose sample at segment 0
reports 0 mm of rainfall and whose sample at segment 10 reports 11 mm,
the reported `avg_rainfall` is 1 (the per-segment mean, the first sample
counted ten times), while the arithmetic mean across the two distinct
fetched samples is 11/2. -/
theorem weather_mean_counterexample :
    (calculate cexRoad cexWeather cexSegs).weather_analysis.map
        (fun wa => wa.avg_rainfall) = some 1 ∧
    ((cexWeather 0).rainfall_mm + (cexWeather 10).rainfall_mm) / 2 = 11 / 2 ∧
    (1 : ℚ) ≠ 11 / 2 := by
  refine ⟨?_, by norm_num [cexWeather], by norm_num⟩
  simp [calculate, scorerLoop, initScorerState, cexRoad, cexWeather, cexSegs,
    List.replicate]

/-- C7 amended: for every non-empty segment list the weather analysis
reports, for rainfall, windspeed, visibility, temperature, cloudcover
and the three sub-risks, the mean across all segments — each segment
contributing its (possibly reused) most recent sample, so samples are
weighted by the number of segments that reuse them — with the cloudcover
mean additionally truncated to an integer. -/
theorem weather_mean_per_segment :
    ∀ (roadAt : Nat → RoadSample) (weatherAt : Nat → WeatherSample)
      (segs : List Segment), segs ≠ [] →
      ∃ wa, (calculate roadAt weatherAt segs).weather_analysis = some wa ∧
        wa.avg_rainfall = wfieldMean (fun w => w.rainfall_mm) weatherAt segs ∧
        wa.avg_windspeed = wfieldMean (fun w => w.windspeed) weatherAt segs ∧
        wa.avg_visibility = wfieldMean (fun w => w.visibility_m) weatherAt segs ∧
        wa.avg_temperature = wfieldMean (fun w => w.temperature) weatherAt segs ∧
        wa.avg_cloudcover =
          pyTrunc (wfieldMean (fun w => w.cloudcover) weatherAt segs) ∧
        wa.visibility_risk =
          wfieldMean (fun w => w.visibility_risk) weatherAt segs ∧
        wa.rain_risk = wfieldMean (fun w => w.rain_risk) weatherAt segs ∧
        wa.wind_risk = wfieldMean (fun w => w.wind_risk) weatherAt segs := by
  intro roadAt weatherAt segs hne
  rw [calculate_spec _ _ _ hne]
  exact ⟨_, rfl, rfl, rfl, rfl, rfl, rfl, rfl, rfl, rfl⟩

/-- C7 witness: the per-segment means applied to the counterexample
inputs. -/
theorem weather_mean_per_segment_witness :
    ∃ wa, (calculate cexRoad cexWeather cexSegs).weather_analysis = some wa ∧
      wa.avg_rainfall = wfieldMean (fun w => w.rainfall_mm) cexWeather cexSegs ∧
      wa.avg_windspeed = wfieldMean (fun w => w.windspeed) cexWeather cexSegs ∧
      wa.avg_visibility = wfieldMean (fun w => w.visibility_m) cexWeather cexSegs ∧
      wa.avg_temperature =
        wfieldMean (fun w => w.temperature) cexWeather cexSegs ∧
      wa.avg_cloudcover =
        pyTrunc (wfieldMean (fun w => w.cloudcover) cexWeather cexSegs) ∧
      wa.visibility_risk =
        wfieldMean (fun w => w.visibility_risk) cexWeather cexSegs ∧
      wa.rain_risk = wfieldMean (fun w => w.rain_risk) cexWeather cexSegs ∧
      wa.wind_risk = wfieldMean (fun w => w.wind_risk) cexWeather cexSegs :=
  weather_mean_per_segment cexRoad cexWeather cexSegs (by simp [cexSegs])

/-- C2 counterexample: with two fetched routes and a per-route analysis
that raises on the second one, `analyze_routes` returns zero routes (the
whole analysis is aborted, the first route's result is dropped too), so
the output route count does not match the input count of 2. -/
theorem per_route_error_counterexample :
    c2Routes.length = 2 ∧
    (analyze_routes (some c2Routes) true none 3 c2AnalyzeOne
        (fun rs => rs.length)).routes.length = 0 ∧
    (analyze_routes (some c2Routes) true none 3 c2AnalyzeOne
        (fun rs => rs.length)).analysis_complete = false := by
  refine ⟨rfl, by decide, by decide⟩

/-- C2 amended: internal errors during per-route analysis are caught at
the whole-request boundary, not per route: once routes are fetched, an
error while analyzing any route aborts the siblings and yields the error
result with an empty route list, null scores and `analysis_complete =
false`; only when every route's analysis succeeds does the output hold
one record per input route. -/
theorem whole_request_error_boundary :
    ∀ (α β γ : Type) (primary : Option (List (RouteRec α))) (avail : Bool)
      (fallback : Option (List (RouteRec α))) (maxAlt : Nat)
      (analyzeOne : RouteRec α → Except String β) (mkScores : List β → γ)
      (e : String) (rs : List β),
      (get_routes primary avail fallback maxAlt).isEmpty = false →
      (runRouteLoop analyzeOne
          (nameRoutes (get_routes primary avail fallback maxAlt)) = .error e →
        analyze_routes primary avail fallback maxAlt analyzeOne mkScores =
          { error := some e, routes := [], resilience_scores := none,
            analysis_complete := false }) ∧
      (runRouteLoop analyzeOne
          (nameRoutes (get_routes primary avail fallback maxAlt)) = .ok rs →
        analyze_routes primary avail fallback maxAlt analyzeOne mkScores =
          { error := none, routes := rs,
            resilience_scores := some (mkScores rs),
            analysis_complete := true } ∧
        rs.length = (get_routes primary avail fallback maxAlt).length) := by
  intro α β γ primary avail fallback maxAlt analyzeOne mkScores e rs hne
  constructor
  · intro herr
    simp only [analyze_routes, hne, Bool.false_eq_true, if_false, herr]
  · intro hok
    refine ⟨?_, ?_⟩
    · simp only [analyze_routes, hne, Bool.false_eq_true, if_false, hok]
    · rw [runRouteLoop_ok_length analyzeOne _ rs hok, nameRoutes_length]

/-- C2 witness: the amended boundary behaviour applied to the concrete
two-route input whose second route fails. -/
theorem whole_request_error_boundary_witness :
    analyze_routes (some c2Routes) true none 3 c2AnalyzeOne
        (fun rs => rs.length) =
      { error := some "analysis failed", routes := [],
        resilience_scores := none, analysis_complete := false } :=
  (whole_request_error_boundary (Nat) (RouteRec Nat) Nat (some c2Routes) true
    none 3 c2AnalyzeOne (fun rs => rs.length) "analysis failed" []
    (by decide)).1 (by rfl)

/-- C4: route acquisition tries the primary provider first and keeps its
result (truncated to `max_alternatives`, order preserved) whenever it is
non-empty; otherwise it tries exactly the one fallback provider; when
both fail the result is empty; and a fetched route with a missing or
empty name is assigned `"Route N"` at 1-based position N, while a named
route keeps its name. -/
theorem route_acquisition_policy :
    (∀ (α : Type) (p : Option (List (RouteRec α))) (avail : Bool)
        (fb : Option (List (RouteRec α))) (maxAlt : Nat),
      ((p.getD []).isEmpty = false →
        get_routes p avail fb maxAlt = (p.getD []).take maxAlt) ∧
      ((p.getD []).isEmpty = true → avail = true → (fb.getD []).isEmpty = false →
        get_routes p avail fb maxAlt = (fb.getD []).take maxAlt) ∧
      ((p.getD []).isEmpty = true →
        (avail = false ∨ (fb.getD []).isEmpty = true) →
        get_routes p avail fb maxAlt = [])) ∧
    (∀ (α : Type) (routes : List (RouteRec α)) (i : Nat) (r : RouteRec α),
      routes[i]? = some r →
      ((r.route_name = none ∨ r.route_name = some "") →
        (nameRoutes routes)[i]? =
          some { r with route_name := some ("Route " ++ toString (i + 1)) }) ∧
      (∀ s, r.route_name = some s → s ≠ "" →
        (nameRoutes routes)[i]? = some r)) := by
  constructor
  · intro α p avail fb maxAlt
    refine ⟨?_, ?_, ?_⟩
    · intro h1
      simp [get_routes, h1]
    · intro h1 h2 h3
      simp [get_routes, h1, h2, h3]
    · intro h1 h2
      rcases h2 with h2 | h2 <;> simp [get_routes, h1, h2]
  · intro α routes i r hr
    have hmap : (nameRoutes routes)[i]? =
        ((routes[i]?).map (fun a => (i, a))).map (fun p =>
          match p.2.route_name with
          | none => { p.2 with route_name := some ("Route " ++ toString (p.1 + 1)) }
          | some s =>
            if s = "" then
              { p.2 with route_name := some ("Route " ++ toString (p.1 + 1)) }
            else p.2) := by
      rw [nameRoutes, List.getElem?_map, List.getElem?_enum]
    constructor
    · intro hname
      rcases hname with hname | hname <;>
        simp [hmap, hr, hname]
    · intro s hs hsne
      simp [hmap, hr, hs, hsne]

/-- C4 witness: the primary branch applied to a concrete provider result
and the naming rule applied to a route with a missing name. -/
theorem route_acquisition_policy_witness :
    get_routes (some c2Routes) false none 1 = c2Routes.take 1 ∧
    (nameRoutes [({ route_name := none, data := 7 } : RouteRec Nat)])[0]? =
      some { route_name := some "Route 1", data := 7 } :=
  ⟨(route_acquisition_policy.1 Nat (some c2Routes) false none 1).1 (by decide),
    by
      have h := (route_acquisition_policy.2 Nat
        [({ route_name := none, data := 7 } : RouteRec Nat)] 0
        { route_name := none, data := 7 } (by decide)).1 (Or.inl rfl)
      simpa using h⟩

/-- C5: when both route providers return no routes, `analyze_routes`
returns (rather than raises) the explicit error result: empty `routes`,
`resilience_scores` null and `analysis_complete` false. -/
theorem no_routes_terminal_result :
    ∀ (α β γ : Type) (primary fallback : Option (List (RouteRec α)))
      (avail : Bool) (maxAlt : Nat)
      (analyzeOne : RouteRec α → Except String β) (mkScores : List β → γ),
      (primary.getD []).isEmpty = true → (fallback.getD []).isEmpty = true →
      analyze_routes primary avail fallback maxAlt analyzeOne mkScores =
        { error := some "No routes found", routes := [],
          resilience_scores := none, analysis_complete := false } := by
  intro α β γ primary fallback avail maxAlt analyzeOne mkScores h1 h2
  have hget : get_routes primary avail fallback maxAlt = [] := by
    cases avail <;> simp [get_routes, h1, h2]
  simp [analyze_routes, hget]

/-- C5 witness: both providers empty (primary a transport failure,
fallback an empty list). -/
theorem no_routes_terminal_result_witness :
    analyze_routes (α := Nat) (β := Nat) none true (some []) 3
        (fun _ => .error "unused") (fun rs => rs.length) =
      { error := some "No routes found", routes := [],
        resilience_scores := none, analysis_complete := false } :=
  no_routes_terminal_result Nat Nat Nat none (some []) true 3
    (fun _ => .error "unused") (fun rs => rs.length) (by decide) (by decide)

end Quantara
